import Mathlib

/-!
Verification of the `temps` natural-language time-expression parser.

The definitions below are a shallow embedding of the Rust sources:
  * `temps-core/src/lib.rs` (data model, `time_utils`, `common` parsing module)
  * `temps-core/src/language/english.rs` and `german.rs` (grammars)
  * `temps-chrono/src/lib.rs` and `temps-jiff/src/lib.rs` (backend resolvers)

Machine integers are embedded as `Nat`/`Int`; where the Rust code performs a
cast or checked operation the embedding carries the same range checks
explicitly.  Parsers (winnow combinators over `&str`) are embedded as
functions `List Char → Option (α × List Char)` returning the parsed value and
the remaining input; failure is `none` and `alt` backtracks to the original
input exactly as winnow's backtracking combinators do.
-/

deriving instance DecidableEq for Except

namespace Temps

-- ===== Core data model (temps-core/src/lib.rs) =====

inductive TimeUnit where
  | second | minute | hour | day | week | month | year
deriving DecidableEq, Repr

inductive Direction where
  | past | future
deriving DecidableEq, Repr

inductive Weekday where
  | monday | tuesday | wednesday | thursday | friday | saturday | sunday
deriving DecidableEq, Repr

inductive WeekdayModifier where
  | last | next
deriving DecidableEq, Repr

inductive Meridiem where
  | am | pm
deriving DecidableEq, Repr

/-- `Timezone`: UTC or an offset with the sign carried on the hours field
(`hours: i8`, `minutes: u8` in the source; embedded as `Int`/`Nat`). -/
inductive Timezone where
  | utc : Timezone
  | offset (hours : Int) (minutes : Nat) : Timezone
deriving DecidableEq, Repr

/-- `RelativeTime { amount: i64, unit, direction }`. -/
structure RelativeTime where
  amount : Int
  unit : TimeUnit
  direction : Direction
deriving DecidableEq, Repr

/-- `AbsoluteTime`: year/month/day with optional time fields. -/
structure AbsoluteTime where
  year : Nat
  month : Nat
  day : Nat
  hour : Option Nat
  minute : Option Nat
  second : Option Nat
  nanosecond : Option Nat
  timezone : Option Timezone
deriving DecidableEq, Repr

inductive DayReference where
  | today | yesterday | tomorrow
  | weekday (day : Weekday) (modifier : Option WeekdayModifier)
deriving DecidableEq, Repr

/-- `Time { hour: u8, minute: u8, second: u8, meridiem: Option<Meridiem> }`. -/
structure Time where
  hour : Nat
  minute : Nat
  second : Nat
  meridiem : Option Meridiem
deriving DecidableEq, Repr

/-- `StandardDate { day: u8, month: u8, year: u16 }`. -/
structure StandardDate where
  day : Nat
  month : Nat
  year : Nat
deriving DecidableEq, Repr

structure DayTime where
  day : DayReference
  time : Time
deriving DecidableEq, Repr

inductive TimeExpression where
  | now
  | relative (rel : RelativeTime)
  | absolute (abs : AbsoluteTime)
  | day (ref : DayReference)
  | time (t : Time)
  | date (d : StandardDate)
  | dayTime (dt : DayTime)
deriving DecidableEq, Repr

inductive Language where
  | english | german
deriving DecidableEq, Repr

-- ===== Error taxonomy (temps-core/src/error.rs) =====

/-- `TempsError`: the unified error type.  String payloads are carried
verbatim from the source's error-construction sites. -/
inductive TempsError where
  | parseError (message : String) (input : String) (position : Option Nat)
  | dateCalculationError (message : String) (context : Option String)
  | invalidDate (year month day : Nat)
  | invalidTime (hour minute second : Nat)
  | invalidTimezoneOffset (hours : Int) (minutes : Nat)
  | ambiguousTime (message : String)
  | arithmeticOverflow (operation : String)
  | unsupportedOperation (operation : String)
  | backendError (message : String) (backend : String)
deriving DecidableEq, Repr

-- ===== time_utils (temps-core/src/lib.rs lines 588-681) =====

/-- `convert_12_to_24_hour(hour: u8, meridiem: Option<&Meridiem>) -> u8`.
The `hour + 12` in the PM branch is `u8` addition, hence the `% 256`. -/
def convert_12_to_24_hour (hour : Nat) (meridiem : Option Meridiem) : Nat :=
  match meridiem with
  | some Meridiem.am => if hour == 12 then 0 else hour
  | some Meridiem.pm => if hour == 12 then hour else (hour + 12) % 256
  | none => hour

/-- `calculate_weekday_offset(current_day_offset: i64, target_day_offset: i64,
modifier: Option<WeekdayModifier>) -> i64`. -/
def calculate_weekday_offset (current_day_offset target_day_offset : Int)
    (modifier : Option WeekdayModifier) : Int :=
  let days_diff := target_day_offset - current_day_offset
  match modifier with
  | none => if days_diff ≥ 0 then days_diff else 7 + days_diff
  | some WeekdayModifier.next => if days_diff > 0 then days_diff else 7 + days_diff
  | some WeekdayModifier.last => if days_diff < 0 then days_diff else days_diff - 7

-- ===== Parser combinator model (winnow) =====

/-- A winnow parser over `&str`: consumes a prefix of the char list and
returns the value with the remaining input, or fails (`none`).  winnow's
backtracking combinators restore the input on failure, so failure carries
no partial consumption. -/
def P (α : Type) : Type := List Char → Option (α × List Char)

instance : Monad P where
  pure a := fun s => some (a, s)
  bind p f := fun s =>
    match p s with
    | none => none
    | some (a, rest) => f a rest

def pfail {α : Type} : P α := fun _ => none

/-- Two-way alternation: first success wins, failure backtracks. -/
def orElseP {α : Type} (p q : P α) : P α := fun s =>
  match p s with
  | some r => some r
  | none => q s

/-- winnow `alt`: try the parsers in order, commit to the first success. -/
def palt {α : Type} (ps : List (P α)) : P α :=
  ps.foldr orElseP pfail

/-- winnow `opt`: never fails, backtracks fully when the inner parser fails. -/
def popt {α : Type} (p : P α) : P (Option α) := fun s =>
  match p s with
  | some (a, rest) => some (some a, rest)
  | none => some (none, s)

/-- winnow `.map` on a parser. -/
def pmap {α β : Type} (f : α → β) (p : P α) : P β := fun s =>
  match p s with
  | some (a, rest) => some (f a, rest)
  | none => none

/-- winnow `.value`: replace a successful parse's output. -/
def pvalue {α β : Type} (p : P α) (b : β) : P β := pmap (fun _ => b) p

/-- A single literal char parser (`'x'.parse_next`). -/
def pchar (c : Char) : P Char := fun s =>
  match s with
  | [] => none
  | x :: rest => if x = c then some (x, rest) else none

/-- winnow `one_of([...])`. -/
def pone_of (cs : List Char) : P Char := fun s =>
  match s with
  | [] => none
  | x :: rest => if x ∈ cs then some (x, rest) else none

/-- ASCII lower-casing, as used by winnow's `Caseless` comparison. -/
def asciiLower (c : Char) : Char :=
  if 'A' ≤ c ∧ c ≤ 'Z' then Char.ofNat (c.toNat + 32) else c

/-- Match a literal char list against the input, optionally ASCII
case-insensitively, returning the rest on success. -/
def matchChars (caseless : Bool) : List Char → List Char → Option (List Char)
  | [], s => some s
  | _ :: _, [] => none
  | l :: ls, x :: xs =>
      if (if caseless then asciiLower l = asciiLower x else l = x) then
        matchChars caseless ls xs
      else none

/-- An exact (case-sensitive) string literal parser (`"lit"` in winnow). -/
def pliteral (lit : String) : P Unit := fun s =>
  match matchChars false lit.toList s with
  | some rest => some ((), rest)
  | none => none

/-- `Caseless("lit")`: ASCII case-insensitive literal parser. -/
def pcaseless (lit : String) : P Unit := fun s =>
  match matchChars true lit.toList s with
  | some rest => some ((), rest)
  | none => none

/-- Greedily take chars satisfying `pred`, at most `hi` of them. -/
def takeUpTo : Nat → (Char → Bool) → List Char → List Char × List Char
  | 0, _, s => ([], s)
  | _ + 1, _, [] => ([], [])
  | n + 1, pred, x :: xs =>
      if pred x then
        let (tk, rest) := takeUpTo n pred xs
        (x :: tk, rest)
      else ([], x :: xs)

/-- winnow `take_while(lo..=hi, pred)`. -/
def take_while_range (lo hi : Nat) (pred : Char → Bool) : P (List Char) := fun s =>
  let (tk, rest) := takeUpTo hi pred s
  if lo ≤ tk.length then some (tk, rest) else none

/-- winnow `take_while(lo.., pred)` (no upper bound). -/
def take_while_from (lo : Nat) (pred : Char → Bool) : P (List Char) := fun s =>
  let tk := s.takeWhile pred
  if lo ≤ tk.length then some (tk, s.dropWhile pred) else none

def isAsciiDigit (c : Char) : Bool := decide (48 ≤ c.toNat ∧ c.toNat ≤ 57)

/-- winnow multispace: space, tab, newline, carriage return. -/
def isMultispace (c : Char) : Bool :=
  decide (c = ' ' ∨ c = '\t' ∨ c = '\n' ∨ c = '\r')

def digit1 : P (List Char) := take_while_from 1 isAsciiDigit

def multispace0 : P (List Char) := take_while_from 0 isMultispace

def multispace1 : P (List Char) := take_while_from 1 isMultispace

/-- Numeric value of a digit run (`str::parse` on an all-digit string). -/
def digitsToNat (l : List Char) : Nat :=
  l.foldl (fun acc c => acc * 10 + (c.toNat - 48)) 0

-- ===== common parsing module (temps-core/src/lib.rs lines 690-834) =====

/-- `common::parse_digit_number`: `digit1.try_map(str::parse::<i64>)`;
the `try_map` fails (and backtracks) when the digits exceed `i64::MAX`. -/
def parse_digit_number : P Int := fun s =>
  match digit1 s with
  | some (ds, rest) =>
      let v := digitsToNat ds
      if v ≤ 9223372036854775807 then some ((v : Int), rest) else none
  | none => none

/-- `common::parse_two_digit_number`: 1-2 digits parsed as `u8`
(value ≤ 99, the `u8` parse always succeeds). -/
def parse_two_digit_number : P Nat := fun s =>
  match take_while_range 1 2 isAsciiDigit s with
  | some (ds, rest) => some (digitsToNat ds, rest)
  | none => none

/-- `common::parse_four_digit_number`: exactly 4 digits parsed as `u16`
(value ≤ 9999, the `u16` parse always succeeds). -/
def parse_four_digit_number : P Nat := fun s =>
  match take_while_range 4 4 isAsciiDigit s with
  | some (ds, rest) => some (digitsToNat ds, rest)
  | none => none

/-- `common::parse_offset_timezone`: sign, 1-2 digit hours, optional `:MM`.
`hours as i8` is exact here (hours ≤ 99 < 128); the sign is applied to the
hours field only, minutes stay unsigned. -/
def parse_offset_timezone : P Timezone := do
  let sign ← pone_of ['+', '-']
  let hours ← parse_two_digit_number
  let m ← popt (do
    let _ ← pchar ':'
    parse_two_digit_number)
  let minutes := m.getD 0
  let h : Int := if sign = '+' then (hours : Int) else -(hours : Int)
  pure (Timezone.offset h minutes)

/-- `common::parse_timezone`: `Z` or an offset. -/
def parse_timezone : P Timezone :=
  palt [pvalue (pliteral "Z") Timezone.utc, parse_offset_timezone]

/-- The fractional-seconds field of `common::parse_iso_datetime`:
`digit1` consumes every digit; only the first 9 are kept, parsed as `u32`
(the parse fails above `u32::MAX`, which cannot happen for ≤ 9 digits) and
scaled by `10^(9 - len)` to nanoseconds. -/
def parse_fraction : P Nat := fun s =>
  match digit1 s with
  | some (ds, rest) =>
      let fraction := ds.take 9
      let parsed := digitsToNat fraction
      if parsed < 4294967296 then
        some (parsed * 10 ^ (9 - fraction.length), rest)
      else none
  | none => none

/-- The optional time part of `common::parse_iso_datetime`:
`(one_of(['T',' ']), HH, ':', MM, opt((':', SS, opt(('.', fraction)))),
opt(timezone))`. -/
def parse_iso_time_part : P (Nat × Nat × Option (Nat × Option Nat) × Option Timezone) := do
  let _ ← pone_of ['T', ' ']
  let h ← parse_two_digit_number
  let _ ← pchar ':'
  let m ← parse_two_digit_number
  let sec ← popt (do
    let _ ← pchar ':'
    let sv ← parse_two_digit_number
    let frac ← popt (do
      let _ ← pchar '.'
      parse_fraction)
    pure (sv, frac))
  let tz ← popt parse_timezone
  pure (h, m, sec, tz)

/-- `common::parse_iso_datetime`. -/
def parse_iso_datetime : P TimeExpression := do
  let year ← parse_four_digit_number
  let _ ← pchar '-'
  let month ← parse_two_digit_number
  let _ ← pchar '-'
  let day ← parse_two_digit_number
  let tp ← popt parse_iso_time_part
  match tp with
  | some (h, m, secPart, tz) =>
      match secPart with
      | some (sv, frac) =>
          pure (TimeExpression.absolute ⟨year, month, day, some h, some m, some sv, frac, tz⟩)
      | none =>
          pure (TimeExpression.absolute ⟨year, month, day, some h, some m, none, none, tz⟩)
  | none =>
      pure (TimeExpression.absolute ⟨year, month, day, none, none, none, none, none⟩)

-- ===== English grammar (temps-core/src/language/english.rs) =====

namespace EnglishParser

def parse_number : P Int :=
  palt [parse_digit_number,
    palt [pvalue (pcaseless "an") 1, pvalue (pcaseless "a") 1, pvalue (pcaseless "one") 1],
    pvalue (pcaseless "two") 2, pvalue (pcaseless "three") 3,
    pvalue (pcaseless "four") 4, pvalue (pcaseless "five") 5,
    pvalue (pcaseless "six") 6, pvalue (pcaseless "seven") 7,
    pvalue (pcaseless "eight") 8, pvalue (pcaseless "nine") 9,
    pvalue (pcaseless "ten") 10]

def parse_time_unit : P TimeUnit :=
  palt [
    palt [pvalue (pcaseless "seconds") TimeUnit.second,
      pvalue (pcaseless "second") TimeUnit.second,
      pvalue (pcaseless "secs") TimeUnit.second,
      pvalue (pcaseless "sec") TimeUnit.second,
      pvalue (pcaseless "s") TimeUnit.second],
    palt [pvalue (pcaseless "minutes") TimeUnit.minute,
      pvalue (pcaseless "minute") TimeUnit.minute,
      pvalue (pcaseless "mins") TimeUnit.minute,
      pvalue (pcaseless "min") TimeUnit.minute],
    palt [pvalue (pcaseless "hours") TimeUnit.hour,
      pvalue (pcaseless "hour") TimeUnit.hour,
      pvalue (pcaseless "hrs") TimeUnit.hour,
      pvalue (pcaseless "hr") TimeUnit.hour,
      pvalue (pcaseless "h") TimeUnit.hour],
    palt [pvalue (pcaseless "days") TimeUnit.day,
      pvalue (pcaseless "day") TimeUnit.day,
      pvalue (pcaseless "d") TimeUnit.day],
    palt [pvalue (pcaseless "weeks") TimeUnit.week,
      pvalue (pcaseless "week") TimeUnit.week,
      pvalue (pcaseless "wks") TimeUnit.week,
      pvalue (pcaseless "wk") TimeUnit.week,
      pvalue (pcaseless "w") TimeUnit.week],
    palt [pvalue (pcaseless "months") TimeUnit.month,
      pvalue (pcaseless "month") TimeUnit.month,
      pvalue (pcaseless "mos") TimeUnit.month,
      pvalue (pcaseless "mo") TimeUnit.month],
    palt [pvalue (pcaseless "years") TimeUnit.year,
      pvalue (pcaseless "year") TimeUnit.year,
      pvalue (pcaseless "yrs") TimeUnit.year,
      pvalue (pcaseless "yr") TimeUnit.year,
      pvalue (pcaseless "y") TimeUnit.year],
    pvalue (pcaseless "m") TimeUnit.minute]

def parse_relative_past : P TimeExpression := do
  let amount ← parse_number
  let _ ← multispace1
  let unit ← parse_time_unit
  let _ ← multispace1
  let _ ← pcaseless "ago"
  pure (TimeExpression.relative ⟨amount, unit, Direction.past⟩)

def parse_relative_future : P TimeExpression := do
  let _ ← pcaseless "in"
  let _ ← multispace1
  let amount ← parse_number
  let _ ← multispace1
  let unit ← parse_time_unit
  pure (TimeExpression.relative ⟨amount, unit, Direction.future⟩)

def parse_now : P TimeExpression := pvalue (pcaseless "now") TimeExpression.now

def parse_weekday : P Weekday :=
  palt [
    palt [pvalue (pcaseless "monday") Weekday.monday, pvalue (pcaseless "mon") Weekday.monday],
    palt [pvalue (pcaseless "tuesday") Weekday.tuesday, pvalue (pcaseless "tue") Weekday.tuesday],
    palt [pvalue (pcaseless "wednesday") Weekday.wednesday,
      pvalue (pcaseless "wed") Weekday.wednesday],
    palt [pvalue (pcaseless "thursday") Weekday.thursday,
      pvalue (pcaseless "thu") Weekday.thursday],
    palt [pvalue (pcaseless "friday") Weekday.friday, pvalue (pcaseless "fri") Weekday.friday],
    palt [pvalue (pcaseless "saturday") Weekday.saturday,
      pvalue (pcaseless "sat") Weekday.saturday],
    palt [pvalue (pcaseless "sunday") Weekday.sunday, pvalue (pcaseless "sun") Weekday.sunday]]

def parse_day_shortcuts : P DayReference :=
  palt [pvalue (pcaseless "today") DayReference.today,
    pvalue (pcaseless "yesterday") DayReference.yesterday,
    pvalue (pcaseless "tomorrow") DayReference.tomorrow]

def parse_weekday_modifier : P WeekdayModifier :=
  palt [pvalue (pcaseless "last") WeekdayModifier.last,
    pvalue (pcaseless "next") WeekdayModifier.next]

def parse_modified_weekday : P DayReference := do
  let modifier ← parse_weekday_modifier
  let _ ← multispace1
  let day ← parse_weekday
  pure (DayReference.weekday day (some modifier))

def parse_simple_weekday : P DayReference :=
  pmap (fun day => DayReference.weekday day none) parse_weekday

def parse_day_reference : P TimeExpression :=
  pmap TimeExpression.day
    (palt [parse_day_shortcuts, parse_modified_weekday, parse_simple_weekday])

def parse_meridiem : P Meridiem :=
  palt [
    palt [pvalue (pcaseless "am") Meridiem.am, pvalue (pcaseless "a.m.") Meridiem.am],
    palt [pvalue (pcaseless "pm") Meridiem.pm, pvalue (pcaseless "p.m.") Meridiem.pm]]

def parse_time_digits : P (Nat × Nat × Nat × Option Meridiem) := do
  let hour ← parse_two_digit_number
  let _ ← pchar ':'
  let minute ← parse_two_digit_number
  let secondOpt ← popt (do
    let _ ← pchar ':'
    parse_two_digit_number)
  let meridiem ← popt (do
    let _ ← multispace1
    parse_meridiem)
  pure (hour, minute, secondOpt.getD 0, meridiem)

def parse_time : P TimeExpression :=
  pmap (fun (h, m, s, mer) => TimeExpression.time ⟨h, m, s, mer⟩) parse_time_digits

def parse_day_at_time : P TimeExpression := do
  let day ← palt [parse_day_shortcuts, parse_modified_weekday, parse_simple_weekday]
  let _ ← multispace1
  let _ ← pcaseless "at"
  let _ ← multispace1
  let (h, m, s, mer) ← parse_time_digits
  pure (TimeExpression.dayTime ⟨day, ⟨h, m, s, mer⟩⟩)

/-- `parse_date_format`: `YYYY-MM-DD`, or `DD/MM/YYYY` with `/` or `-`
separators (`alt(('/', '-'))` is a one-of over the two chars). -/
def parse_date_format : P TimeExpression :=
  palt [
    do
      let year ← parse_four_digit_number
      let _ ← pchar '-'
      let month ← parse_two_digit_number
      let _ ← pchar '-'
      let day ← parse_two_digit_number
      pure (TimeExpression.date ⟨day, month, year⟩),
    do
      let day ← parse_two_digit_number
      let _ ← pone_of ['/', '-']
      let month ← parse_two_digit_number
      let _ ← pone_of ['/', '-']
      let year ← parse_four_digit_number
      pure (TimeExpression.date ⟨day, month, year⟩)]

/-- The inner alternation of the English `LanguageParser::parse` impl,
in source order (english.rs lines 315-324). -/
def parse_alternatives : P TimeExpression :=
  palt [Temps.parse_iso_datetime, parse_date_format, parse_day_at_time,
    parse_now, parse_day_reference, parse_time,
    parse_relative_past, parse_relative_future]

/-- The full body of the English `LanguageParser::parse` impl:
`delimited(multispace0, alt(...), multispace0)` (written out as the
sequential matches the combinator denotes). -/
def parse_delimited : P TimeExpression := fun s =>
  match multispace0 s with
  | none => none
  | some (_, s1) =>
    match parse_alternatives s1 with
    | none => none
    | some (e, s2) =>
      match multispace0 s2 with
      | none => none
      | some (_, s3) => some (e, s3)

/-- English `LanguageParser::parse`: winnow's `Parser::parse` requires the
whole input to be consumed; failures are converted via
`ParseErrorExt::to_temps_error` into `TempsError::ParseError` carrying the
original input and the failure offset (the consumed length when a matched
alternative leaves trailing input, 0 when nothing matched, since every
failed branch backtracks).  The formatted message is modelled by the fixed
string "Parser error". -/
def parse (input : String) : Except TempsError TimeExpression :=
  let cs := input.toList
  match parse_delimited cs with
  | some (e, []) => Except.ok e
  | some (_, rest) =>
      Except.error (TempsError.parseError "Parser error" input (some (cs.length - rest.length)))
  | none => Except.error (TempsError.parseError "Parser error" input (some 0))

end EnglishParser

-- ===== German grammar (temps-core/src/language/german.rs) =====

namespace GermanParser

/-- `take_while(1.., ' ')`: one or more literal spaces (German grammar uses
plain spaces, not multispace, between words). -/
def spaces1 : P (List Char) := take_while_from 1 (fun c => c = ' ')

/-- `take_while(0.., ' ')`. -/
def spaces0 : P (List Char) := take_while_from 0 (fun c => c = ' ')

/-- `parse_number`: digits first, then exact (case-sensitive) articles and
number words. -/
def parse_number : P Int :=
  palt [parse_digit_number,
    pvalue (pliteral "einem") 1, pvalue (pliteral "einer") 1,
    pvalue (pliteral "einen") 1, pvalue (pliteral "eine") 1,
    pvalue (pliteral "ein") 1,
    pvalue (pliteral "zwei") 2, pvalue (pliteral "drei") 3,
    pvalue (pliteral "vier") 4, pvalue (pliteral "fünf") 5,
    pvalue (pliteral "sechs") 6, pvalue (pliteral "sieben") 7,
    pvalue (pliteral "acht") 8, pvalue (pliteral "neun") 9,
    pvalue (pliteral "zehn") 10]

/-- `parse_time_unit`: full unit words are exact-case literals; only the
abbreviations are `Caseless` (source comment: "Abbreviations can be
case-insensitive"). -/
def parse_time_unit : P TimeUnit :=
  palt [
    palt [pvalue (pliteral "Sekunden") TimeUnit.second,
      pvalue (pliteral "Sekunde") TimeUnit.second,
      pvalue (pcaseless "sek") TimeUnit.second],
    palt [pvalue (pliteral "Minuten") TimeUnit.minute,
      pvalue (pliteral "Minute") TimeUnit.minute,
      pvalue (pcaseless "min") TimeUnit.minute],
    palt [pvalue (pliteral "Stunden") TimeUnit.hour,
      pvalue (pliteral "Stunde") TimeUnit.hour,
      pvalue (pcaseless "std") TimeUnit.hour],
    palt [pvalue (pliteral "Tagen") TimeUnit.day,
      pvalue (pliteral "Tage") TimeUnit.day,
      pvalue (pliteral "Tag") TimeUnit.day],
    palt [pvalue (pliteral "Wochen") TimeUnit.week,
      pvalue (pliteral "Woche") TimeUnit.week],
    palt [pvalue (pliteral "Monaten") TimeUnit.month,
      pvalue (pliteral "Monate") TimeUnit.month,
      pvalue (pliteral "Monat") TimeUnit.month],
    palt [pvalue (pliteral "Jahren") TimeUnit.year,
      pvalue (pliteral "Jahre") TimeUnit.year,
      pvalue (pliteral "Jahr") TimeUnit.year]]

def parse_relative_past : P TimeExpression := do
  let _ ← pliteral "vor"
  let _ ← spaces1
  let amount ← parse_number
  let _ ← spaces1
  let unit ← parse_time_unit
  pure (TimeExpression.relative ⟨amount, unit, Direction.past⟩)

def parse_relative_future : P TimeExpression := do
  let _ ← pliteral "in"
  let _ ← spaces1
  let amount ← parse_number
  let _ ← spaces1
  let unit ← parse_time_unit
  pure (TimeExpression.relative ⟨amount, unit, Direction.future⟩)

def parse_now : P TimeExpression := pvalue (pcaseless "jetzt") TimeExpression.now

/-- `parse_weekday`: full weekday names are exact-case literals, two-letter
abbreviations are `Caseless`. -/
def parse_weekday : P Weekday :=
  palt [
    palt [pvalue (pliteral "Montag") Weekday.monday, pvalue (pcaseless "mo") Weekday.monday],
    palt [pvalue (pliteral "Dienstag") Weekday.tuesday, pvalue (pcaseless "di") Weekday.tuesday],
    palt [pvalue (pliteral "Mittwoch") Weekday.wednesday,
      pvalue (pcaseless "mi") Weekday.wednesday],
    palt [pvalue (pliteral "Donnerstag") Weekday.thursday,
      pvalue (pcaseless "do") Weekday.thursday],
    palt [pvalue (pliteral "Freitag") Weekday.friday, pvalue (pcaseless "fr") Weekday.friday],
    palt [pvalue (pliteral "Samstag") Weekday.saturday, pvalue (pcaseless "sa") Weekday.saturday],
    palt [pvalue (pliteral "Sonntag") Weekday.sunday, pvalue (pcaseless "so") Weekday.sunday]]

def parse_day_shortcuts : P DayReference :=
  palt [pvalue (pcaseless "heute") DayReference.today,
    pvalue (pcaseless "gestern") DayReference.yesterday,
    pvalue (pcaseless "morgen") DayReference.tomorrow]

/-- `parse_weekday_modifier`: exact-case literals. -/
def parse_weekday_modifier : P WeekdayModifier :=
  palt [
    palt [pvalue (pliteral "letzten") WeekdayModifier.last,
      pvalue (pliteral "letzte") WeekdayModifier.last],
    palt [pvalue (pliteral "nächsten") WeekdayModifier.next,
      pvalue (pliteral "nächste") WeekdayModifier.next]]

def parse_modified_weekday : P DayReference := do
  let modifier ← parse_weekday_modifier
  let _ ← spaces1
  let day ← parse_weekday
  pure (DayReference.weekday day (some modifier))

def parse_simple_weekday : P DayReference :=
  pmap (fun day => DayReference.weekday day none) parse_weekday

def parse_day_reference : P TimeExpression :=
  pmap TimeExpression.day
    (palt [parse_day_shortcuts, parse_modified_weekday, parse_simple_weekday])

def parse_time_digits : P (Nat × Nat × Nat) := do
  let hour ← parse_two_digit_number
  let _ ← pchar ':'
  let minute ← parse_two_digit_number
  let secondOpt ← popt (do
    let _ ← pchar ':'
    parse_two_digit_number)
  pure (hour, minute, secondOpt.getD 0)

def parse_time : P TimeExpression := do
  let (h, m, s) ← parse_time_digits
  let _ ← popt (do
    let _ ← spaces1
    pcaseless "uhr")
  pure (TimeExpression.time ⟨h, m, s, none⟩)

def parse_day_at_time : P TimeExpression := do
  let day ← palt [parse_day_shortcuts, parse_modified_weekday, parse_simple_weekday]
  let _ ← spaces1
  let _ ← pliteral "um"
  let _ ← spaces1
  let (h, m, s) ← parse_time_digits
  let _ ← popt (do
    let _ ← spaces1
    pcaseless "uhr")
  pure (TimeExpression.dayTime ⟨day, ⟨h, m, s, none⟩⟩)

/-- `parse_date_format`: `DD.MM.YYYY`. -/
def parse_date_format : P TimeExpression := do
  let day ← parse_two_digit_number
  let _ ← pchar '.'
  let month ← parse_two_digit_number
  let _ ← pchar '.'
  let year ← parse_four_digit_number
  pure (TimeExpression.date ⟨day, month, year⟩)

/-- The inner alternation of the German `LanguageParser::parse` impl,
in source order (german.rs lines 296-305). -/
def parse_alternatives : P TimeExpression :=
  palt [Temps.parse_iso_datetime, parse_date_format, parse_day_at_time,
    parse_now, parse_day_reference, parse_time,
    parse_relative_past, parse_relative_future]

/-- The full body of the German `LanguageParser::parse` impl:
`delimited(take_while(0.., ' '), alt(...), take_while(0.., ' '))`
(written out as the sequential matches the combinator denotes). -/
def parse_delimited : P TimeExpression := fun s =>
  match spaces0 s with
  | none => none
  | some (_, s1) =>
    match parse_alternatives s1 with
    | none => none
    | some (e, s2) =>
      match spaces0 s2 with
      | none => none
      | some (_, s3) => some (e, s3)

end GermanParser

/-- The raw `winnow::error::ParseError<&str, ContextError>` as exposed by
`winnow::Parser::parse`; it carries a failure offset (`.offset()`) but no
copy of the original input and no `TempsError` payload. -/
structure WinnowParseError where
  offset : Nat
deriving DecidableEq, Repr

/-- German `LanguageParser::parse` (german.rs lines 288-309): unlike the
English impl it returns the winnow error **unconverted** — its declared
return type is `Result<TimeExpression, winnow::error::ParseError<&str,
ContextError>>`, not the trait's `Result<TimeExpression> =
Result<TimeExpression, TempsError>`, and no `to_temps_error` call is made. -/
def GermanParser.parse (input : String) : Except WinnowParseError TimeExpression :=
  let cs := input.toList
  match GermanParser.parse_delimited cs with
  | some (e, []) => Except.ok e
  | some (_, rest) => Except.error ⟨cs.length - rest.length⟩
  | none => Except.error ⟨0⟩

/-- The English arm of the dispatcher `parse(input, language)`
(temps-core/src/lib.rs lines 926-931).  The German arm forwards to
`GermanParser.parse`, whose error type does not match the
`LanguageParser` trait (see above), so the two arms cannot be given one
faithful return type; the German arm is `GermanParser.parse` directly. -/
def parse_with_english (input : String) : Except TempsError TimeExpression :=
  EnglishParser.parse input

-- ===== Calendar model for the backend resolvers =====

/-- A proleptic Gregorian calendar date, the common abstraction of
chrono's `NaiveDate` and jiff's `civil::Date`. -/
structure CDate where
  year : Int
  month : Nat
  day : Nat
deriving DecidableEq, Repr

/-- Gregorian leap-year rule. -/
def isLeapYear (y : Int) : Bool :=
  y % 4 == 0 && (y % 100 != 0 || y % 400 == 0)

def daysInMonth (y : Int) (m : Nat) : Nat :=
  if m = 2 then (if isLeapYear y then 29 else 28)
  else if m = 4 ∨ m = 6 ∨ m = 9 ∨ m = 11 then 30
  else 31

def validYmd (y : Int) (m d : Nat) : Bool :=
  decide (1 ≤ m ∧ m ≤ 12 ∧ 1 ≤ d ∧ d ≤ daysInMonth y m)

/-- Modelled from the spec: the backend capability "`add_months` /
`sub_months`, both calendar-safe (day clamping as described in §4.3)" —
the concrete implementations (chrono's `checked_add_months`, jiff's month
spans) live in the external date-time libraries, not in this repository.
Shift by `n` months and clamp the day-of-month to the last valid day of
the target month. -/
def addMonthsClamped (d : CDate) (n : Int) : CDate :=
  let total : Int := d.year * 12 + ((d.month : Int) - 1) + n
  let y := total.ediv 12
  let m := (total.emod 12).toNat + 1
  ⟨y, m, min d.day (daysInMonth y m)⟩

/-- chrono `DateTime::checked_add_months` (and `checked_sub_months`, via a
negative count): the clamped month shift, `None` when the result leaves
chrono's representable year range.  Modelled from the spec (§6), as the
implementation is in the external chrono crate. -/
def chronoCheckedAddMonths (d : CDate) (n : Int) : Option CDate :=
  let r := addMonthsClamped d n
  if -262144 ≤ r.year ∧ r.year ≤ 262143 then some r else none

/-- jiff `Zoned::checked_add`/`checked_sub` of a months (or years) span:
the clamped month shift, an error when the result leaves jiff's civil
date range (years -9999..=9999).  Modelled from the spec (§6), as the
implementation is in the external jiff crate. -/
def jiffCheckedAddMonths (d : CDate) (n : Int) : Option CDate :=
  let r := addMonthsClamped d n
  if -9999 ≤ r.year ∧ r.year ≤ 9999 then some r else none

/-- A resolved local date-time (date plus wall-clock time), the result
shape shared by both backend resolvers for the claims below. -/
structure CDateTime where
  date : CDate
  hour : Nat
  minute : Nat
  second : Nat
deriving DecidableEq, Repr

-- ===== ChronoProvider (temps-chrono/src/lib.rs) =====

namespace ChronoProvider

/-- The `TimeUnit::Month` arm of the `Relative` case of
`ChronoProvider::parse_expression` (lines 92-109):
`Months::new(rel.amount.try_into().map_err(.. "Month amount must be a
positive number" ..)?)` — the `i64 → u32` conversion fails exactly for
amounts outside `0..=u32::MAX`; then `checked_sub_months` (Past) or
`checked_add_months` (Future), whose `None` becomes
`DateCalculationError("Date calculation resulted in invalid date")`. -/
def resolveRelativeMonth (now : CDate) (amount : Int) (direction : Direction) :
    Except TempsError CDate :=
  if 0 ≤ amount ∧ amount ≤ 4294967295 then
    let shifted := match direction with
      | Direction.past => chronoCheckedAddMonths now (-amount)
      | Direction.future => chronoCheckedAddMonths now amount
    match shifted with
    | some r => Except.ok r
    | none =>
        Except.error (TempsError.dateCalculationError
          "Date calculation resulted in invalid date" none)
  else
    Except.error (TempsError.dateCalculationError
      "Month amount must be a positive number" none)

/-- The `TimeUnit::Year` arm (lines 110-134): `rel.amount.checked_mul(12)`
— `None` (i64 overflow) becomes `ArithmeticOverflow("Year calculation
overflow")`; then the same `u32` conversion (message "Year amount must be
a positive number") and month arithmetic on `12·amount` months. -/
def resolveRelativeYear (now : CDate) (amount : Int) (direction : Direction) :
    Except TempsError CDate :=
  if -9223372036854775808 ≤ amount * 12 ∧ amount * 12 ≤ 9223372036854775807 then
    if 0 ≤ amount * 12 ∧ amount * 12 ≤ 4294967295 then
      let shifted := match direction with
        | Direction.past => chronoCheckedAddMonths now (-(amount * 12))
        | Direction.future => chronoCheckedAddMonths now (amount * 12)
      match shifted with
      | some r => Except.ok r
      | none =>
          Except.error (TempsError.dateCalculationError
            "Date calculation resulted in invalid date" none)
    else
      Except.error (TempsError.dateCalculationError
        "Year amount must be a positive number" none)
  else
    Except.error (TempsError.arithmeticOverflow "Year calculation overflow")

/-- chrono `NaiveDate::from_ymd_opt`: month/day validity on the proleptic
Gregorian calendar (a year cast from `u16` is always inside chrono's year
range, so that bound is not reached here). -/
def from_ymd_opt (y : Int) (m d : Nat) : Option CDate :=
  if validYmd y m d then some ⟨y, m, d⟩ else none

/-- The `TimeExpression::Date` arm of `ChronoProvider::parse_expression`
(lines 319-329): `from_ymd_opt` validity check (else
`InvalidDate{year,month,day}`), then midnight; the local-timezone
attachment (`and_local_timezone(Local).single()`) is modelled as always
unambiguous at midnight. -/
def resolveDate (d : StandardDate) : Except TempsError CDateTime :=
  match from_ymd_opt (d.year : Int) d.month d.day with
  | some cd => Except.ok ⟨cd, 0, 0, 0⟩
  | none => Except.error (TempsError.invalidDate d.year d.month d.day)

/-- The `TimeExpression::Time` arm (lines 280-291): the parsed hour runs
through `convert_12_to_24_hour`, then `and_hms_opt` on today's date fails
for out-of-range components, yielding `InvalidTime` with the *original*
parsed components. -/
def resolveTime (now : CDate) (t : Time) : Except TempsError CDateTime :=
  let hour := convert_12_to_24_hour t.hour t.meridiem
  if hour ≤ 23 ∧ t.minute ≤ 59 ∧ t.second ≤ 59 then
    Except.ok ⟨now, hour, t.minute, t.second⟩
  else
    Except.error (TempsError.invalidTime t.hour t.minute t.second)

end ChronoProvider

-- ===== JiffProvider (temps-jiff/src/lib.rs) =====

namespace JiffProvider

/-- The `TimeUnit::Month` case of the `Relative` arm of
`JiffProvider::parse_expression` (lines 86-115): the signed `rel.amount`
goes directly into `Span::new().months(rel.amount)` — no unsigned cast and
no overflow-checked multiplication — and `checked_sub` (Past) /
`checked_add` (Future) failures map to `DateCalculationError { message:
"Date calculation error", context: Some(e.to_string()) }` (the context
string is modelled as "jiff error").  Span construction itself panics
outside jiff's unit limits; only amounts where construction succeeds are
modelled. -/
def resolveRelativeMonth (now : CDate) (amount : Int) (direction : Direction) :
    Except TempsError CDate :=
  let shifted := match direction with
    | Direction.past => jiffCheckedAddMonths now (-amount)
    | Direction.future => jiffCheckedAddMonths now amount
  match shifted with
  | some r => Except.ok r
  | none =>
      Except.error (TempsError.dateCalculationError
        "Date calculation error" (some "jiff error"))

/-- The `TimeUnit::Year` case (same lines): `Span::new().years(rel.amount)`
— a years span shifts by `12·amount` months with the same day clamp; same
error mapping as the Month case. -/
def resolveRelativeYear (now : CDate) (amount : Int) (direction : Direction) :
    Except TempsError CDate :=
  let shifted := match direction with
    | Direction.past => jiffCheckedAddMonths now (-(amount * 12))
    | Direction.future => jiffCheckedAddMonths now (amount * 12)
  match shifted with
  | some r => Except.ok r
  | none =>
      Except.error (TempsError.dateCalculationError
        "Date calculation error" (some "jiff error"))

end JiffProvider

-- ===== Helper definitions and lemmas for the theorems =====

/-- The canonical two-digit rendering of `mm ≤ 99`, for quantifying over
`MM` minute fields in C9. -/
def twoDigitChars (mm : Nat) : List Char :=
  [Char.ofNat (48 + mm / 10), Char.ofNat (48 + mm % 10)]

/-- `digitsToNat` with an explicit accumulator, for induction. -/
lemma digitsToNat_foldl_lt (ds : List Char)
    (h : ∀ c ∈ ds, isAsciiDigit c = true) (acc : Nat) :
    ds.foldl (fun a c => a * 10 + (c.toNat - 48)) acc < (acc + 1) * 10 ^ ds.length := by
  induction ds generalizing acc with
  | nil => simp
  | cons c cs ih =>
      have hc : isAsciiDigit c = true := h c (List.mem_cons_self c cs)
      have hd : c.toNat - 48 ≤ 9 := by
        simp only [isAsciiDigit, decide_eq_true_eq] at hc
        omega
      have hrec := ih (fun x hx => h x (List.mem_cons_of_mem c hx)) (acc * 10 + (c.toNat - 48))
      have hstep : (acc * 10 + (c.toNat - 48) + 1) * 10 ^ cs.length ≤
          (acc + 1) * 10 ^ (cs.length + 1) := by
        have : acc * 10 + (c.toNat - 48) + 1 ≤ (acc + 1) * 10 := by omega
        calc (acc * 10 + (c.toNat - 48) + 1) * 10 ^ cs.length
            ≤ (acc + 1) * 10 * 10 ^ cs.length := Nat.mul_le_mul_right _ this
          _ = (acc + 1) * 10 ^ (cs.length + 1) := by ring
      simp only [List.foldl_cons, List.length_cons]
      exact lt_of_lt_of_le hrec hstep

/-- An all-digit run's numeric value is below `10 ^ length`. -/
lemma digitsToNat_lt (ds : List Char) (h : ∀ c ∈ ds, isAsciiDigit c = true) :
    digitsToNat ds < 10 ^ ds.length := by
  simpa [digitsToNat] using digitsToNat_foldl_lt ds h 0

/-- Every month has at least 28 days. -/
lemma daysInMonth_ge (y : Int) (m : Nat) : 28 ≤ daysInMonth y m := by
  unfold daysInMonth
  split_ifs <;> omega

-- ===== C1 =====

/-- C1: for Monday-origin weekday indices `current`, `target` in `0..=6`,
`calculate_weekday_offset` returns `diff = target - current` when
`diff ≥ 0` (no modifier) / `diff > 0` (Next) / `diff < 0` (Last), and
otherwise `diff + 7` (none, Next) or `diff - 7` (Last); the result lies in
`[0,6]` / `[1,7]` / `[-7,-1]` respectively, a bare weekday equal to
today's resolves to offset 0, and the same weekday with Next resolves to
offset 7. -/
theorem calculate_weekday_offset_spec (c t : Int)
    (hc0 : 0 ≤ c) (hc6 : c ≤ 6) (ht0 : 0 ≤ t) (ht6 : t ≤ 6) :
    (calculate_weekday_offset c t none =
      if t - c ≥ 0 then t - c else (t - c) + 7) ∧
    (calculate_weekday_offset c t (some WeekdayModifier.next) =
      if t - c > 0 then t - c else (t - c) + 7) ∧
    (calculate_weekday_offset c t (some WeekdayModifier.last) =
      if t - c < 0 then t - c else (t - c) - 7) ∧
    (0 ≤ calculate_weekday_offset c t none ∧
      calculate_weekday_offset c t none ≤ 6) ∧
    (1 ≤ calculate_weekday_offset c t (some WeekdayModifier.next) ∧
      calculate_weekday_offset c t (some WeekdayModifier.next) ≤ 7) ∧
    (-7 ≤ calculate_weekday_offset c t (some WeekdayModifier.last) ∧
      calculate_weekday_offset c t (some WeekdayModifier.last) ≤ -1) ∧
    calculate_weekday_offset c c none = 0 ∧
    calculate_weekday_offset c c (some WeekdayModifier.next) = 7 := by
  simp only [calculate_weekday_offset]
  refine ⟨?_, ?_, ?_, ?_, ?_, ?_, ?_, ?_⟩ <;> (try split_ifs) <;>
    first
    | trivial
    | omega

/-- Witness for C1 at `current = 2`, `target = 2`: the bare weekday
resolves to today and Next to 7 days later. -/
theorem calculate_weekday_offset_spec_witness :
    calculate_weekday_offset 2 2 none = 0 ∧
    calculate_weekday_offset 2 2 (some WeekdayModifier.next) = 7 :=
  ⟨(calculate_weekday_offset_spec 2 2 (by norm_num) (by norm_num) (by norm_num)
      (by norm_num)).2.2.2.2.2.2.1,
   (calculate_weekday_offset_spec 2 2 (by norm_num) (by norm_num) (by norm_num)
      (by norm_num)).2.2.2.2.2.2.2⟩

-- ===== C7 =====

/-- C7: the 12→24-hour conversion satisfies `convert(12, AM) = 0`,
`convert(12, PM) = 12`, `convert(h, PM) = h + 12` for `h ≠ 12` (in `u8`
arithmetic, hence exactly `h + 12` for every in-range hour `h ≤ 23`), and
`convert(h, None) = h`. -/
theorem convert_12_to_24_hour_spec :
    convert_12_to_24_hour 12 (some Meridiem.am) = 0 ∧
    convert_12_to_24_hour 12 (some Meridiem.pm) = 12 ∧
    (∀ h : Nat, h ≠ 12 →
      convert_12_to_24_hour h (some Meridiem.pm) = (h + 12) % 256) ∧
    (∀ h : Nat, h ≤ 23 → h ≠ 12 →
      convert_12_to_24_hour h (some Meridiem.pm) = h + 12) ∧
    (∀ h : Nat, convert_12_to_24_hour h none = h) := by
  refine ⟨rfl, rfl, ?_, ?_, ?_⟩
  · intro h hne
    simp [convert_12_to_24_hour, hne]
  · intro h hle hne
    simp only [convert_12_to_24_hour, beq_iff_eq, if_neg hne]
    omega
  · intro h
    rfl

/-- Witness for C7 at `h = 3` PM: `convert(3, PM) = 15`. -/
theorem convert_12_to_24_hour_spec_witness :
    convert_12_to_24_hour 3 (some Meridiem.pm) = 3 + 12 :=
  convert_12_to_24_hour_spec.2.2.2.1 3 (by norm_num) (by norm_num)

-- ===== C2 =====

/-- The clamped month shift always yields a valid calendar date. -/
lemma addMonthsClamped_valid (d : CDate) (n : Int)
    (h : validYmd d.year d.month d.day = true) :
    validYmd (addMonthsClamped d n).year (addMonthsClamped d n).month
      (addMonthsClamped d n).day = true := by
  simp only [validYmd, decide_eq_true_eq] at h ⊢
  obtain ⟨hm1, hm2, hd1, hd2⟩ := h
  simp only [addMonthsClamped]
  set total : Int := d.year * 12 + ((d.month : Int) - 1) + n with htotal
  have hm0 : 0 ≤ total.emod 12 := Int.emod_nonneg _ (by norm_num)
  have hm12 : total.emod 12 < 12 := Int.emod_lt_of_pos _ (by norm_num)
  have hdim := daysInMonth_ge (total.ediv 12) ((total.emod 12).toNat + 1)
  refine ⟨by omega, by omega, ?_, ?_⟩
  · exact le_min hd1 (by omega)
  · exact min_le_right _ _

/-- C2: Month/Year `Relative` resolution is calendar-safe in both
backends: the month shift always produces a valid date (day clamped to
the target month's length), Jan 31 + 1 month is Feb 29 in a leap year and
Feb 28 otherwise, and Feb 29 + 1 year is Feb 28 of the next year — for
the chrono and the jiff resolver alike. -/
theorem relative_month_year_calendar_safe :
    (∀ (d : CDate) (n : Int), validYmd d.year d.month d.day = true →
      validYmd (addMonthsClamped d n).year (addMonthsClamped d n).month
        (addMonthsClamped d n).day = true) ∧
    ChronoProvider.resolveRelativeMonth ⟨2024, 1, 31⟩ 1 Direction.future =
      Except.ok ⟨2024, 2, 29⟩ ∧
    ChronoProvider.resolveRelativeMonth ⟨2023, 1, 31⟩ 1 Direction.future =
      Except.ok ⟨2023, 2, 28⟩ ∧
    ChronoProvider.resolveRelativeYear ⟨2024, 2, 29⟩ 1 Direction.future =
      Except.ok ⟨2025, 2, 28⟩ ∧
    JiffProvider.resolveRelativeMonth ⟨2024, 1, 31⟩ 1 Direction.future =
      Except.ok ⟨2024, 2, 29⟩ ∧
    JiffProvider.resolveRelativeMonth ⟨2023, 1, 31⟩ 1 Direction.future =
      Except.ok ⟨2023, 2, 28⟩ ∧
    JiffProvider.resolveRelativeYear ⟨2024, 2, 29⟩ 1 Direction.future =
      Except.ok ⟨2025, 2, 28⟩ :=
  ⟨addMonthsClamped_valid, by decide, by decide, by decide, by decide, by decide,
    by decide⟩

/-- Witness for C2's universally quantified clamp invariant, at
2024-01-31 shifted by one month. -/
theorem relative_month_year_calendar_safe_witness :
    validYmd (addMonthsClamped ⟨2024, 1, 31⟩ 1).year
      (addMonthsClamped ⟨2024, 1, 31⟩ 1).month
      (addMonthsClamped ⟨2024, 1, 31⟩ 1).day = true :=
  relative_month_year_calendar_safe.1 ⟨2024, 1, 31⟩ 1 (by decide)

-- ===== C6 =====

/-- C6 counterexample: the jiff resolver does **not** reject a negative
month amount — resolving amount `-1`, unit Month, direction Future from
2024-06-15 succeeds (jiff spans are signed), so the rejection does not
hold "for every backend resolver". -/
theorem jiff_negative_month_not_rejected :
    JiffProvider.resolveRelativeMonth ⟨2024, 6, 15⟩ (-1) Direction.future =
      Except.ok ⟨2024, 5, 15⟩ := by decide

/-- The jiff `Relative` match only produces `Ok` or the generic
`DateCalculationError`, never `ArithmeticOverflow`. -/
lemma jiff_match_no_overflow (o : Option CDate) (op : String) :
    (match o with
      | some r => Except.ok r
      | none =>
          Except.error (TempsError.dateCalculationError
            "Date calculation error" (some "jiff error"))) ≠
      (Except.error (TempsError.arithmeticOverflow op) : Except TempsError CDate) := by
  cases o <;> simp

/-- C6 amended: the chrono resolver rejects a negative Month amount with
`DateCalculationError` and returns `ArithmeticOverflow` when `amount * 12`
overflows `i64`; the jiff resolver instead passes the signed amount
directly into a span — it accepts negative amounts (resolving them as a
subtraction) and never returns `ArithmeticOverflow`. -/
theorem relative_amount_checks_per_backend :
    (∀ (now : CDate) (amount : Int) (direction : Direction), amount < 0 →
      ChronoProvider.resolveRelativeMonth now amount direction =
        Except.error (TempsError.dateCalculationError
          "Month amount must be a positive number" none)) ∧
    (∀ (now : CDate) (amount : Int) (direction : Direction),
      9223372036854775807 < amount * 12 ∨ amount * 12 < -9223372036854775808 →
      ChronoProvider.resolveRelativeYear now amount direction =
        Except.error (TempsError.arithmeticOverflow "Year calculation overflow")) ∧
    (∀ (now : CDate) (amount : Int) (direction : Direction) (op : String),
      JiffProvider.resolveRelativeMonth now amount direction ≠
        Except.error (TempsError.arithmeticOverflow op) ∧
      JiffProvider.resolveRelativeYear now amount direction ≠
        Except.error (TempsError.arithmeticOverflow op)) ∧
    JiffProvider.resolveRelativeMonth ⟨2024, 6, 15⟩ (-1) Direction.future =
      Except.ok ⟨2024, 5, 15⟩ := by
  refine ⟨?_, ?_, ?_, by decide⟩
  · intro now amount direction h
    simp only [ChronoProvider.resolveRelativeMonth]
    rw [if_neg (by omega)]
  · intro now amount direction h
    simp only [ChronoProvider.resolveRelativeYear]
    rw [if_neg (by omega)]
  · intro now amount direction op
    cases direction <;>
      exact ⟨jiff_match_no_overflow _ _, jiff_match_no_overflow _ _⟩

/-- Witness for C6's amended theorem: the chrono resolver rejects
amount `-1`, unit Month. -/
theorem relative_amount_checks_per_backend_witness :
    ChronoProvider.resolveRelativeMonth ⟨2024, 1, 1⟩ (-1) Direction.future =
      Except.error (TempsError.dateCalculationError
        "Month amount must be a positive number" none) :=
  relative_amount_checks_per_backend.1 ⟨2024, 1, 1⟩ (-1) Direction.future (by norm_num)

-- ===== C3 =====

/-- C3: range validity is checked at resolution, not parse time:
`parse("32/13/2024", English)` succeeds syntactically as
`Date { day: 32, month: 13, year: 2024 }` and only its resolution fails,
with `InvalidDate { 2024, 13, 32 }`; `parse("25:00:00")` succeeds as a
`Time` expression and fails at resolution with `InvalidTime`. -/
theorem range_validity_checked_at_resolution :
    parse_with_english "32/13/2024" =
      Except.ok (TimeExpression.date ⟨32, 13, 2024⟩) ∧
    ChronoProvider.resolveDate ⟨32, 13, 2024⟩ =
      Except.error (TempsError.invalidDate 2024 13 32) ∧
    parse_with_english "25:00:00" =
      Except.ok (TimeExpression.time ⟨25, 0, 0, none⟩) ∧
    ChronoProvider.resolveTime ⟨2024, 6, 15⟩ ⟨25, 0, 0, none⟩ =
      Except.error (TempsError.invalidTime 25 0 0) :=
  ⟨rfl, rfl, rfl, rfl⟩

-- ===== C4 =====

/-- `multispace0` always succeeds and splits off the leading whitespace. -/
lemma multispace0_eq (s : List Char) :
    multispace0 s = some (s.takeWhile isMultispace, s.dropWhile isMultispace) := by
  simp [multispace0, take_while_from]

/-- The English top-level parser as a function of the inner alternation:
strip leading whitespace, run the alternation, strip trailing
whitespace. -/
lemma english_parse_delimited_eq (cs : List Char) :
    EnglishParser.parse_delimited cs =
      match EnglishParser.parse_alternatives (cs.dropWhile isMultispace) with
      | none => none
      | some (e, rest) => some (e, rest.dropWhile isMultispace) := by
  unfold EnglishParser.parse_delimited
  rw [multispace0_eq cs]
  cases h : EnglishParser.parse_alternatives (cs.dropWhile isMultispace) with
  | none => simp only [h]
  | some pr =>
      obtain ⟨e, rest⟩ := pr
      simp only [h, multispace0_eq rest]

/-- C4: if the first matching grammar alternative consumes only a proper
prefix of the trimmed input — i.e. it leaves a rest still containing a
non-whitespace char — the English `parse` returns a `ParseError` rather
than the prefix's value; concretely `parse("now!", English)` is a parse
error while `parse("now", English)` is `Ok(Now)`. -/
theorem english_requires_total_consumption :
    (∀ (input : String) (e : TimeExpression) (rest : List Char),
      EnglishParser.parse_alternatives (input.toList.dropWhile isMultispace) =
        some (e, rest) →
      (∃ c ∈ rest, isMultispace c = false) →
      ∃ pos, EnglishParser.parse input =
        Except.error (TempsError.parseError "Parser error" input pos)) ∧
    parse_with_english "now!" =
      Except.error (TempsError.parseError "Parser error" "now!" (some 3)) ∧
    parse_with_english "now" = Except.ok TimeExpression.now := by
  refine ⟨?_, rfl, rfl⟩
  intro input e rest halt hex
  have hne : rest.dropWhile isMultispace ≠ [] := by
    intro hnil
    obtain ⟨c, hc, hcf⟩ := hex
    have := (List.dropWhile_eq_nil_iff.mp hnil) c hc
    simp [this] at hcf
  cases hrd : rest.dropWhile isMultispace with
  | nil => exact absurd hrd hne
  | cons c cs' =>
      refine ⟨some (input.toList.length - (c :: cs').length), ?_⟩
      simp only [String.toList] at halt hrd ⊢
      simp [EnglishParser.parse, english_parse_delimited_eq, halt, hrd]

/-- Witness for C4's quantified part at input `"now!"`: the `now`
alternative matches the proper prefix `now` and `!` remains, so the
result is a `ParseError`. -/
theorem english_requires_total_consumption_witness :
    ∃ pos, EnglishParser.parse "now!" =
      Except.error (TempsError.parseError "Parser error" "now!" pos) :=
  english_requires_total_consumption.1 "now!" TimeExpression.now ['!']
    (by decide) ⟨'!', by decide, by decide⟩

-- ===== C5 =====

/-- C5 counterexample: in the German grammar, `"in 5 Minuten"` parses but
its upper-cased form `"IN 5 MINUTEN"` is a parse error — full-word German
literals are not case-insensitive. -/
theorem german_uppercase_not_accepted :
    GermanParser.parse "in 5 Minuten" =
      Except.ok (TimeExpression.relative ⟨5, TimeUnit.minute, Direction.future⟩) ∧
    GermanParser.parse "IN 5 MINUTEN" = Except.error ⟨0⟩ :=
  ⟨rfl, rfl⟩

/-- C5 amended: whole-word literal matching is case-insensitive
throughout the English grammar, and in German for "jetzt" and the day
shortcuts (plus "Uhr" and the abbreviations); German full unit words,
weekday names, weekday modifiers and the "in"/"vor" markers are
exact-case. -/
theorem case_insensitivity_per_language :
    parse_with_english "NOW" = Except.ok TimeExpression.now ∧
    parse_with_english "Now" = Except.ok TimeExpression.now ∧
    parse_with_english "now" = Except.ok TimeExpression.now ∧
    parse_with_english "IN 5 MINUTES" =
      Except.ok (TimeExpression.relative ⟨5, TimeUnit.minute, Direction.future⟩) ∧
    parse_with_english "NEXT MONDAY" =
      Except.ok (TimeExpression.day
        (DayReference.weekday Weekday.monday (some WeekdayModifier.next))) ∧
    GermanParser.parse "JETZT" = Except.ok TimeExpression.now ∧
    GermanParser.parse "Jetzt" = Except.ok TimeExpression.now ∧
    GermanParser.parse "jetzt" = Except.ok TimeExpression.now ∧
    GermanParser.parse "HEUTE" = Except.ok (TimeExpression.day DayReference.today) ∧
    GermanParser.parse "in 5 Minuten" =
      Except.ok (TimeExpression.relative ⟨5, TimeUnit.minute, Direction.future⟩) ∧
    GermanParser.parse "IN 5 MINUTEN" = Except.error ⟨0⟩ ∧
    GermanParser.parse "nächsten Montag" =
      Except.ok (TimeExpression.day
        (DayReference.weekday Weekday.monday (some WeekdayModifier.next))) ∧
    GermanParser.parse "NÄCHSTEN MONTAG" = Except.error ⟨0⟩ :=
  ⟨rfl, rfl, rfl, rfl, rfl, rfl, rfl, rfl, rfl, rfl, rfl, rfl, rfl⟩

-- ===== C8 =====

/-- C8: at the failing input `"now!"` the English parser returns the
unified `TempsError::ParseError` carrying the original input and the
failure offset, while the German `LanguageParser::parse` impl returns the
raw winnow error unconverted (no input payload, offset only) — not a
`TempsError` at all, contradicting the `LanguageParser` trait
declaration it implements and the dispatcher built on it. -/
theorem german_parse_error_not_unified :
    parse_with_english "now!" =
      Except.error (TempsError.parseError "Parser error" "now!" (some 3)) ∧
    GermanParser.parse "now!" = Except.error (⟨0⟩ : WinnowParseError) :=
  ⟨rfl, rfl⟩

-- ===== C9 =====

/-- C9: in ISO offset parsing the sign applies to the hours field only:
for every two-digit minutes value `MM`, `-00:MM` parses to
`Offset { hours: 0, minutes: MM }` — exactly the value `+00:MM` parses
to, so the minus sign of a sub-hour negative offset is silently lost. -/
theorem offset_sign_applies_to_hours_only :
    ∀ mm : Nat, mm < 100 →
      parse_offset_timezone ('-' :: '0' :: '0' :: ':' :: twoDigitChars mm) =
        some (Timezone.offset 0 mm, []) ∧
      parse_offset_timezone ('+' :: '0' :: '0' :: ':' :: twoDigitChars mm) =
        some (Timezone.offset 0 mm, []) := by decide

/-- Witness for C9 at `MM = 30`: `-00:30` parses to offset `{0, 30}`. -/
theorem offset_sign_applies_to_hours_only_witness :
    parse_offset_timezone ('-' :: '0' :: '0' :: ':' :: twoDigitChars 30) =
      some (Timezone.offset 0 30, []) :=
  (offset_sign_applies_to_hours_only 30 (by norm_num)).1

-- ===== C10 =====

/-- An all-digit run is consumed whole by `digit1`. -/
lemma digit1_all_digits (ds : List Char) (hds : ∀ c ∈ ds, isAsciiDigit c = true)
    (h1 : 1 ≤ ds.length) : digit1 ds = some (ds, []) := by
  simp only [digit1, take_while_from]
  rw [List.takeWhile_eq_self_iff.mpr hds, List.dropWhile_eq_nil_iff.mpr hds,
    if_pos h1]

/-- C10: a fractional-seconds field of `d ≤ 9` digits with value `v`
yields nanosecond `v * 10^(9-d)`; a field longer than 9 digits is
consumed whole but silently truncated to its first 9 digits rather than
rejected.  Concretely `.123` yields 123000000 and a 13-digit fraction in
a full ISO timestamp yields the first nine digits, 123456789. -/
theorem fractional_seconds_scaling :
    (∀ ds : List Char, (∀ c ∈ ds, isAsciiDigit c = true) → 1 ≤ ds.length →
      ds.length ≤ 9 →
      parse_fraction ds = some (digitsToNat ds * 10 ^ (9 - ds.length), [])) ∧
    (∀ ds : List Char, (∀ c ∈ ds, isAsciiDigit c = true) → 9 < ds.length →
      parse_fraction ds = some (digitsToNat (ds.take 9), [])) ∧
    parse_fraction ['1', '2', '3'] = some (123000000, []) ∧
    EnglishParser.parse "2024-01-15T14:30:00.1234567890123Z" =
      Except.ok (TimeExpression.absolute
        ⟨2024, 1, 15, some 14, some 30, some 0, some 123456789,
          some Timezone.utc⟩) := by
  refine ⟨?_, ?_, by decide, rfl⟩
  · intro ds hds h1 h9
    simp only [parse_fraction, digit1_all_digits ds hds h1]
    rw [List.take_of_length_le h9]
    have hlt : digitsToNat ds < 4294967296 :=
      lt_of_lt_of_le (digitsToNat_lt ds hds)
        (le_trans (Nat.pow_le_pow_right (by norm_num) h9) (by norm_num))
    rw [if_pos hlt]
  · intro ds hds h9
    simp only [parse_fraction, digit1_all_digits ds hds (by omega)]
    have hlen : (ds.take 9).length = 9 := by
      rw [List.length_take]
      omega
    have hmem : ∀ c ∈ ds.take 9, isAsciiDigit c = true := fun c hc =>
      hds c (List.mem_of_mem_take hc)
    have hlt : digitsToNat (ds.take 9) < 4294967296 := by
      have h := digitsToNat_lt _ hmem
      rw [hlen] at h
      exact lt_of_lt_of_le h (by norm_num)
    rw [if_pos hlt, hlen]
    norm_num

/-- Witness for C10's quantified parts at the 3-digit fraction `123`:
nanosecond `123 * 10^6`. -/
theorem fractional_seconds_scaling_witness :
    parse_fraction ['1', '2', '3'] =
      some (digitsToNat ['1', '2', '3'] *
        10 ^ (9 - (['1', '2', '3'] : List Char).length), []) :=
  fractional_seconds_scaling.1 ['1', '2', '3'] (by decide) (by decide) (by decide)

end Temps
